import Mathlib

set_option maxHeartbeats 1000000

/-!
Shallow embedding of the template recommendation engine of
`tft_advisor/recommender.py`: catalog, template and snapshot data model,
scoring, craftability, holder resolution, item/shop planning and pivot
trigger evaluation, followed by theorems checking the specification.
-/

/-- A catalog champion: id plus the trait ids it grants. -/
structure Champion where
  id : String
  cost : Nat
  traits : List String
deriving Repr, DecidableEq

/-- A catalog item: id, kind (component / completed / artifact), its
component ids and its effect tags. -/
structure Item where
  id : String
  kind : String
  components : List String
  effect_tags : List String
deriving Repr, DecidableEq

/-- The loaded pack (catalog): champions and items indexed by id.  The
Python dicts built by `load_pack` key each record by its own `id` field,
so we keep the records in insertion order; lookups scan for the matching
id. -/
structure Pack where
  champions : List Champion
  items : List Item
  traits : List String
deriving Repr, DecidableEq

/-- A unit on the board or bench: champion id and star level. -/
structure BoardUnit where
  champion_id : String
  stars : Int
deriving Repr, DecidableEq

/-- Snapshot observations: stability string and contested champion ids. -/
structure Observations where
  stability : String
  contested_units : List String
deriving Repr, DecidableEq

/-- The game-state snapshot consumed by the engine. -/
structure GS where
  stage : String
  board : List BoardUnit
  bench : List BoardUnit
  inventory : List String
  observations : Observations
  set_patch : Option String
deriving Repr, DecidableEq

/-- A core-trait goal of a template: trait id and optional numeric target. -/
structure CoreTraitGoal where
  trait : String
  target : Option Int
deriving Repr, DecidableEq

/-- The carry plan of a template. -/
structure CarryPlan where
  primary_carry : Option String
  main_tank : Option String
  utility_carry : Option String
  secondary_carries : List String
deriving Repr, DecidableEq

/-- Placeholder holder lists of a template. -/
structure HolderRules where
  carry_placeholders : List String
  tank_placeholders : List String
  utility_placeholders : List String
deriving Repr, DecidableEq

/-- One entry of the template's per-holder item plans: the final holder
champion id and its ordered item list. -/
structure HolderPlan where
  holder : String
  items : List String
deriving Repr, DecidableEq

/-- A level-plan entry; only the stage key is inspected by the engine,
the rest is passed through opaquely. -/
structure LevelPlanEntry where
  stage : String
  note : String
deriving Repr, DecidableEq

/-- A Python value as far as `normalize_then` distinguishes them: a
string, a structured dict, a list, or any other value abstracted by the
string `str()` would render it to. -/
inductive PyVal where
  | vstr : String → PyVal
  | vlist : List PyVal → PyVal
  | vdict : List (String × PyVal) → PyVal
  | other : String → PyVal
deriving Repr

/-- The required/core unit block of a template. -/
structure UnitsBlock where
  required : List String
  core : List String
deriving Repr, DecidableEq

/-- A pivot trigger: optional gates plus its consequence value.  A gate
that is absent on the Python dict (or present with a value the code
ignores, such as a non-string `by_stage` or a non-`True` boolean) is
`none` / `false` here. -/
structure Trigger where
  by_stage : Option String
  if_stable : Bool
  if_unstable : Bool
  if_contested : Bool
  if_uncontested : Bool
  contested_unit : Option String
  if_miss : Option String
  then_val : PyVal
deriving Repr

/-- A build template. -/
structure Template where
  id : String
  name : String
  units : UnitsBlock
  core_traits : List CoreTraitGoal
  carry_plan : CarryPlan
  holder_rules : HolderRules
  items : List HolderPlan
  level_plan : List LevelPlanEntry
  pivot_triggers : List Trigger
deriving Repr

/-- Python string split on a single-character separator, over the
character list: empty runs are kept and `"".split(sep)` is `[""]`. -/
def split_chars (sep : Char) : List Char → List (List Char)
  | [] => [[]]
  | c :: rest =>
    let r := split_chars sep rest
    if c = sep then [] :: r
    else
      match r with
      | h :: t => (c :: h) :: t
      | [] => [c] :: []

/-- Python `s.split(sep)` for a one-character separator. -/
def py_split (s : String) (sep : Char) : List String :=
  (split_chars sep s.data).map String.mk

/-- Python `str.strip()`: drop whitespace from both ends. -/
def py_strip (s : String) : String :=
  String.mk (((s.data.dropWhile Char.isWhitespace).reverse.dropWhile
    Char.isWhitespace).reverse)

/-- Decimal value of a nonempty all-digit character list. -/
def parse_digits (l : List Char) : Option Nat :=
  if l ≠ [] ∧ l.all Char.isDigit then
    some (l.foldl (fun acc c => acc * 10 + (c.toNat - 48)) 0)
  else none

/-- Python `int(s)` on a string: optional surrounding whitespace, an
optional sign, then decimal digits; `none` when the call would raise. -/
def py_int_of_string (s : String) : Option Int :=
  match (py_strip s).data with
  | '-' :: rest => (parse_digits rest).map (fun n => -(n : Int))
  | '+' :: rest => (parse_digits rest).map (fun n => (n : Int))
  | l => (parse_digits l).map (fun n => (n : Int))

/-- Joining counterpart of `py_split`. -/
def join_with (sep : String) : List String → String
  | [] => ""
  | h :: t => t.foldl (fun acc p => acc ++ sep ++ p) h

/-- Python code-point lexicographic string comparison (the order `sorted`
and tuple keys use), over character lists. -/
def chars_le : List Char → List Char → Bool
  | [], _ => true
  | _ :: _, [] => false
  | a :: as, b :: bs => if a = b then chars_le as bs else decide (a < b)

/-- Python `a <= b` on strings. -/
def py_str_le (a b : String) : Bool :=
  chars_le a.data b.data

/-- Insert an element after every already-placed element that compares
`le` to it, so equal elements keep their arrival order. -/
def stable_insert (le : α → α → Bool) (a : α) : List α → List α
  | [] => [a]
  | b :: t => if le b a then b :: stable_insert le a t else a :: b :: t

/-- Stable sort (the behavior of Python's `sorted` / `list.sort`):
insert the elements left to right, each after its equals. -/
def stable_sort (le : α → α → Bool) (l : List α) : List α :=
  l.foldl (fun acc a => stable_insert le a acc) []

/-- `stage_to_int`: split on a dash into exactly two integer parts and
encode as major*10+minor; any failure yields 0. -/
def stage_to_int (stage : String) : Int :=
  match py_split stage '-' with
  | [a, b] =>
    match py_int_of_string a, py_int_of_string b with
    | some x, some y => x * 10 + y
    | _, _ => 0
  | _ => 0

/-- `count_traits` evaluated at a single trait id: the Counter value the
Python code builds for `tid` from the units in `unit_ids` (unknown
champion ids are skipped). -/
def count_traits (pack : Pack) (unit_ids : List String) (tid : String) : Nat :=
  (unit_ids.map (fun uid =>
    match pack.champions.find? (fun c => c.id == uid) with
    | none => 0
    | some c => c.traits.count tid)).sum

/-- `craftable_items`: ids of completed catalog items with exactly two
components whose component multiset is covered by the inventory
multiset, sorted. -/
def craftable_items (pack : Pack) (inventory : List String) : List String :=
  let out := (pack.items.filter (fun it =>
    decide (it.kind = "completed" ∧ it.components.length = 2 ∧
      (∀ c ∈ it.components.dedup, it.components.count c ≤ inventory.count c)))).map
    (fun it => it.id)
  stable_sort py_str_le out

/-- The metadata record `desired_items_index` stores per desired item. -/
structure DesiredMeta where
  final_holder : String
  priority_index : Nat
  is_core : Bool
deriving Repr, DecidableEq

/-- The insertion sequence of `desired_items_index`: one entry per item
occurrence in each holder plan, in plan order. -/
def desired_items_index (template : Template) : List (String × DesiredMeta) :=
  template.items.flatMap (fun plan =>
    plan.items.enum.map (fun e =>
      (e.2, { final_holder := plan.holder, priority_index := e.1,
              is_core := decide (e.1 < 2) })))

/-- Lookup in the dict built by `desired_items_index`: the value of the
last write wins, as with Python dict insertion. -/
def desired_lookup (template : Template) (item_id : String) : Option DesiredMeta :=
  (desired_items_index template).foldl
    (fun acc e => if e.1 = item_id then some e.2 else acc) none

/-- Python `s.split(sep, 1)` for a one-character separator: split at the
first occurrence only; `none` when the separator does not occur. -/
def split_once (s : String) (sep : Char) : Option (String × String) :=
  match py_split s sep with
  | [] => none
  | [_] => none
  | x :: rest => some (x, join_with (String.mk [sep]) rest)

/-- Python `msg or dflt` on strings: the default replaces an empty string. -/
def or_default (msg dflt : String) : String :=
  if msg = "" then dflt else msg

/-- Abstraction of Python `str()` for the values `normalize_then` can
receive that are neither `str` nor `dict`. -/
def py_str_of : PyVal → String
  | .vstr s => s
  | .vlist _ => "[list]"
  | .vdict _ => "[dict]"
  | .other r => r

/-- `normalize_then`: structured dicts pass through; `"tag: message"`
strings are mapped by the fixed tag table, unknown tags become a tagged
note, strings without a colon and non-string non-dict values become a
plain note. -/
def normalize_then (then_val : PyVal) : PyVal :=
  match then_val with
  | .vdict d => .vdict d
  | .vstr s =>
    match split_once s ':' with
    | some pr =>
      let tag := py_strip pr.1
      let msg := py_strip pr.2
      if tag = "pivot_to_backup_void" then
        .vdict [(("action"), .vstr ("switch_template")), (("target"), .vstr ("backup_void")),
                (("why"), .vstr (or_default msg ("Pivot to backup.")))]
      else if tag = "hard_pivot" ∨ tag = "soft_pivot_warning" then
        .vdict [(("action"), .vstr ("consider_templates")),
                (("targets"), .vlist [.vstr ("backup_void"), .vstr ("greedy_fast8")]),
                (("why"), .vstr (or_default msg ("Consider pivot.")))]
      else if tag = "convert_lead" then
        .vdict [(("action"), .vstr ("set_policy")), (("policy"), .vstr ("push_levels")),
                (("why"), .vstr (or_default msg ("Convert lead by leveling.")))]
      else if tag = "stop_greed" then
        .vdict [(("action"), .vstr ("set_policy")), (("policy"), .vstr ("stabilize_now")),
                (("why"), .vstr (or_default msg ("Stabilize now.")))]
      else
        .vdict [(("action"), .vstr ("note")), (("tag"), .vstr tag), (("message"), .vstr msg)]
    | none => .vdict [(("action"), .vstr ("note")), (("message"), .vstr s)]
  | v => .vdict [(("action"), .vstr ("note")), (("message"), .vstr (py_str_of v))]

/-- `unit_stars`: the highest star level of the champion across board
and bench, 0 when no copy is owned. -/
def unit_stars (gs : GS) (champion_id : String) : Int :=
  let upd := fun (best : Int) (u : BoardUnit) =>
    if u.champion_id = champion_id then max best u.stars else best
  gs.bench.foldl upd (gs.board.foldl upd 0)

/-- `parse_miss_token`: split at the last underscore; when the suffix
parses as an int return (champion, some stars), otherwise the whole
token with no star requirement. -/
def parse_miss_token (token : String) : String × Option Int :=
  let parts := py_split token '_'
  if parts.length ≤ 1 then (token, none)
  else
    match py_int_of_string (parts.getLastD ("")) with
    | some n => (join_with ("_") parts.dropLast, some n)
    | none => (token, none)

/-- `first_on_board`: the first candidate currently fielded. -/
def first_on_board (board_ids candidates : List String) : Option String :=
  candidates.find? (fun c => board_ids.contains c)

/-- Python truthiness of an optional string (`None` and `""` are falsy). -/
def py_truthy_str : Option String → Bool
  | none => false
  | some s => s ≠ ""

/-- `choose_now_holder`: pick the unit that should equip the item right
now, via the tag-driven fallback chains of the source. -/
def choose_now_holder (pack : Pack) (gs : GS) (template : Template) (item_id : String)
    (final_holder : String) : String :=
  let board_ids := gs.board.map (fun u => u.champion_id)
  if board_ids.contains final_holder then final_holder
  else
    let item_tags := ((pack.items.find? (fun i => i.id == item_id)).map
      (fun i => i.effect_tags)).getD []
    let primary := template.carry_plan.primary_carry
    let tank := template.carry_plan.main_tank
    let secondary := template.carry_plan.secondary_carries
    let utility := template.carry_plan.utility_carry
    let last_resort := board_ids.headD final_holder
    let required_fallback :=
      match template.units.required.find? (fun uid => board_ids.contains uid) with
      | some uid => uid
      | none => last_resort
    let tank_branch :=
      let step_ph :=
        match first_on_board board_ids template.holder_rules.tank_placeholders with
        | some ph => if ph ≠ "" then ph else required_fallback
        | none => required_fallback
      match tank with
      | some t => if board_ids.contains t then t else step_ph
      | none => step_ph
    let util_branch :=
      let step_primary :=
        match primary with
        | some p => if board_ids.contains p then p else last_resort
        | none => last_resort
      let step_secondary :=
        match secondary.find? (fun uid => board_ids.contains uid) with
        | some uid => uid
        | none => step_primary
      let step_ph :=
        match first_on_board board_ids template.holder_rules.utility_placeholders with
        | some ph => if ph ≠ "" then ph else step_secondary
        | none => step_secondary
      match utility with
      | some u => if board_ids.contains u then u else step_ph
      | none => step_ph
    let default_branch :=
      let step_ph :=
        match first_on_board board_ids template.holder_rules.carry_placeholders with
        | some ph => if ph ≠ "" then ph else last_resort
        | none => last_resort
      let step_secondary :=
        match secondary.find? (fun uid => board_ids.contains uid) with
        | some uid => uid
        | none => step_ph
      match primary with
      | some p => if board_ids.contains p then p else step_secondary
      | none => step_secondary
    if item_tags.contains ("tank") then tank_branch
    else if item_tags.contains ("antiheal") ∨ item_tags.contains ("shred") ∨
        item_tags.contains ("cc") ∨ item_tags.contains ("cleanse") then util_branch
    else default_branch

/-- The transfer-plan record attached when the final holder is absent. -/
structure TransferPlan where
  final_holder : String
  when : String
deriving Repr, DecidableEq

/-- One item action emitted by the planner. -/
structure ItemAction where
  action : String
  item_id : String
  now_holder : String
  final_holder : String
  priority : String
  slot_index : Nat
  why : String
  transfer_plan : Option TransferPlan
deriving Repr, DecidableEq

/-- The sort key of `item_actions`: core before luxury, then slot
index, then item id (Python tuple order on
`(priority != "core", slot_index, item_id)`). -/
def item_action_le (a b : ItemAction) : Bool :=
  let pa : Nat := if a.priority = "core" then 0 else 1
  let pb : Nat := if b.priority = "core" then 0 else 1
  if pa ≠ pb then decide (pa < pb)
  else if a.slot_index ≠ b.slot_index then decide (a.slot_index < b.slot_index)
  else py_str_le a.item_id b.item_id

/-- The single action record the loop body of `item_actions` builds for
one desired craftable item. -/
def item_action_for (pack : Pack) (template : Template) (gs : GS)
    (item_id : String) (meta : DesiredMeta) : ItemAction :=
  let board_ids := gs.board.map (fun u => u.champion_id)
  let stability := gs.observations.stability
  let stage_i := stage_to_int gs.stage
  let now_holder := choose_now_holder pack gs template item_id meta.final_holder
  let act :=
    if meta.is_core then (("slam_now"), ("Core item for this line."))
    else if stability = "stable" ∧ stage_i ≤ 40 then
      (("hold"), ("Luxury slot; you’re stable early—hold if you want to wait for higher value slams."))
    else (("slam_now"), ("You benefit from immediate power; slam to stabilise."))
  let transfer :=
    if board_ids.contains meta.final_holder then none
    else some { final_holder := meta.final_holder,
                when := "transfer_when_final_holder_is_fielded" }
  { action := act.1, item_id := item_id, now_holder := now_holder,
    final_holder := meta.final_holder,
    priority := if meta.is_core then "core" else "luxury",
    slot_index := meta.priority_index, why := act.2, transfer_plan := transfer }

/-- `item_actions`: for every craftable item the template wants, decide
slam-now versus hold, resolve the current holder and attach a transfer
plan; sort core first, then slot index, then item id. -/
def item_actions (pack : Pack) (template : Template) (gs : GS)
    (craftable_now : List String) : List ItemAction :=
  let actions := craftable_now.filterMap (fun item_id =>
    (desired_lookup template item_id).map (item_action_for pack template gs item_id))
  stable_sort item_action_le actions

/-- One shop action. -/
structure ShopAction where
  action : String
  champion_id : String
  why : String
deriving Repr, DecidableEq

/-- `shop_actions`: priority buys for missing required units, then
buy-if-seen for missing core units, truncated to 12. -/
def shop_actions (template : Template) (gs : GS) : List ShopAction :=
  let board_ids := gs.board.map (fun u => u.champion_id)
  let bench_ids := gs.bench.map (fun u => u.champion_id)
  let owned := board_ids ++ bench_ids
  let req := template.units.required.filterMap (fun uid =>
    if owned.contains uid then none
    else some { action := "priority_buy", champion_id := uid,
                why := "Required for the line." })
  let cor := template.units.core.filterMap (fun uid =>
    if owned.contains uid ∨ template.units.required.contains uid then none
    else some { action := "buy_if_seen", champion_id := uid,
                why := "Core board piece." })
  (req ++ cor).take 12

/-- `pivot_warnings`: the standing contested-carry warning from stage
encoding 41 on. -/
def pivot_warnings (template : Template) (gs : GS) : List String :=
  let stage_i := stage_to_int gs.stage
  let contested := gs.observations.contested_units
  match template.carry_plan.primary_carry with
  | some p =>
    if stage_i ≥ 41 ∧ contested.contains p then
      [p ++ " looks contested by 4-1+ — be ready to pivot if copies aren’t coming."]
    else []
  | none => []

/-- Per-trait line of the score breakdown. -/
structure TraitDetail where
  trait : String
  have_count : Nat
  target : Option Int
deriving Repr, DecidableEq

/-- The diagnostic breakdown returned by `score_template`. -/
structure Breakdown where
  unit_score : Int
  trait_score : Int
  craft_score : Int
  traits : List TraitDetail
  req_hit : Nat
  req_total : Nat
  core_hit : Nat
  core_total : Nat
  craftable_now : List String
deriving Repr, DecidableEq

/-- Python truthiness of an optional int (`None` and `0` are falsy). -/
def py_truthy_int : Option Int → Bool
  | none => false
  | some n => n ≠ 0

/-- The trait-score contribution of one core trait, following the
source's `if target:` truthiness branch. -/
def trait_term (target : Option Int) (have_count : Nat) : Int :=
  if py_truthy_int target then
    let t := target.getD 0
    min (have_count : Int) t * 2 + (if (have_count : Int) ≥ t then 5 else 0)
  else (have_count : Int)

/-- `score_template`: unit, trait and craft scores with the breakdown. -/
def score_template (pack : Pack) (template : Template) (gs : GS) : Int × Breakdown :=
  let board_ids := gs.board.map (fun u => u.champion_id)
  let bench_ids := gs.bench.map (fun u => u.champion_id)
  let owned := board_ids ++ bench_ids
  let required := template.units.required
  let core := template.units.core
  let req_hit := required.countP (fun u => owned.contains u)
  let core_hit := core.countP (fun u => owned.contains u)
  let unit_score : Int := (req_hit : Int) * 10 + (core_hit : Int) * 2
  let trait_score : Int := (template.core_traits.map (fun t =>
    trait_term t.target (count_traits pack board_ids t.trait))).sum
  let trait_detail := template.core_traits.map (fun t =>
    { trait := t.trait, have_count := count_traits pack board_ids t.trait,
      target := t.target : TraitDetail })
  let craft_now := craftable_items pack gs.inventory
  let craft_score : Int := (craft_now.countP (fun x => (desired_lookup template x).isSome) : Int) * 3
  let total := unit_score + trait_score + craft_score
  (total,
   { unit_score := unit_score, trait_score := trait_score, craft_score := craft_score,
     traits := trait_detail, req_hit := req_hit, req_total := required.length,
     core_hit := core_hit, core_total := core.length, craftable_now := craft_now })

/-- Normalization applied to every trigger before evaluation. -/
def normalize_trigger (trig : Trigger) : Trigger :=
  { trig with then_val := normalize_then trig.then_val }

/-- Python `a or b` on optional strings. -/
def py_or_str (a b : Option String) : Option String :=
  if py_truthy_str a then a else b

/-- `trigger_active`: the gate chain of `eval_pivot_triggers`; each gate
that is present and fails skips the trigger (returns false). -/
def trigger_active (template : Template) (gs : GS) (trig : Trigger) : Bool :=
  let stage_i := stage_to_int gs.stage
  let stability := gs.observations.stability
  let contested := gs.observations.contested_units
  let who := py_or_str trig.contested_unit template.carry_plan.primary_carry
  if (match trig.by_stage with
      | some s => decide (stage_to_int s > stage_i)
      | none => false) then false
  else if trig.if_stable && decide (stability ≠ "stable") then false
  else if trig.if_unstable && decide (stability = "stable") then false
  else if trig.if_contested &&
      !(py_truthy_str who && contested.contains (who.getD (""))) then false
  else if trig.if_uncontested &&
      (py_truthy_str who && contested.contains (who.getD (""))) then false
  else if (match trig.if_miss with
      | some tok =>
        let pm := parse_miss_token tok
        let have_stars := unit_stars gs pm.1
        match pm.2 with
        | none => decide (have_stars > 0)
        | some stars => decide (have_stars ≥ stars)
      | none => false) then false
  else true

/-- `eval_pivot_triggers`: the normalized trigger list and its active
subset, both in template order. -/
def eval_pivot_triggers (template : Template) (gs : GS) : List Trigger × List Trigger :=
  let triggers := template.pivot_triggers.map normalize_trigger
  (triggers, triggers.filter (fun t => trigger_active template gs t))

/-- The `if_miss` gate check on one token: pass iff the champion is
entirely unowned (no star suffix) or its best owned star level is
strictly below the suffix. -/
def miss_passes (gs : GS) (tok : String) : Bool :=
  let pm := parse_miss_token tok
  let have_stars := unit_stars gs pm.1
  match pm.2 with
  | none => decide (have_stars ≤ 0)
  | some stars => decide (have_stars < stars)

/-- The `by_stage` gate in isolation: vacuous when absent, otherwise the
gate stage must have been reached. -/
def pass_by_stage (gs : GS) (trig : Trigger) : Bool :=
  match trig.by_stage with
  | some s => decide (stage_to_int s ≤ stage_to_int gs.stage)
  | none => true

/-- The `if_stable` gate in isolation. -/
def pass_if_stable (gs : GS) (trig : Trigger) : Bool :=
  if trig.if_stable then decide (gs.observations.stability = "stable") else true

/-- The `if_unstable` gate in isolation. -/
def pass_if_unstable (gs : GS) (trig : Trigger) : Bool :=
  if trig.if_unstable then decide (gs.observations.stability ≠ "stable") else true

/-- The unit a contested-style gate talks about: the trigger's own
`contested_unit` or, failing a truthy one, the template's primary carry. -/
def trigger_who (template : Template) (trig : Trigger) : Option String :=
  py_or_str trig.contested_unit template.carry_plan.primary_carry

/-- The `if_contested` gate in isolation. -/
def pass_if_contested (template : Template) (gs : GS) (trig : Trigger) : Bool :=
  if trig.if_contested then
    py_truthy_str (trigger_who template trig) &&
      gs.observations.contested_units.contains ((trigger_who template trig).getD (""))
  else true

/-- The `if_uncontested` gate in isolation. -/
def pass_if_uncontested (template : Template) (gs : GS) (trig : Trigger) : Bool :=
  if trig.if_uncontested then
    !(py_truthy_str (trigger_who template trig) &&
      gs.observations.contested_units.contains ((trigger_who template trig).getD ("")))
  else true

/-- The `if_miss` gate in isolation. -/
def pass_if_miss (gs : GS) (trig : Trigger) : Bool :=
  match trig.if_miss with
  | some tok => miss_passes gs tok
  | none => true

/-- Spec reading of "the highest star level observed for that champion
across board and bench" (0 when no copy is owned). -/
def highest_owned_stars (gs : GS) (champ : String) : Int :=
  (((gs.board ++ gs.bench).filter (fun u => u.champion_id = champ)).map
    (fun u => u.stars)).foldl max 0

/-- Whether a champion id resolves in the catalog to a champion granting
the trait. -/
def champ_grants (pack : Pack) (uid tid : String) : Bool :=
  match pack.champions.find? (fun c => c.id == uid) with
  | none => false
  | some c => c.traits.contains tid

/-- Spec reading of the per-trait owned count: the number of fielded
board units granting the trait. -/
def owned_count_spec (pack : Pack) (gs : GS) (tid : String) : Nat :=
  ((gs.board.map (fun u => u.champion_id)).filter
    (fun uid => champ_grants pack uid tid)).length

/-- The per-trait contribution exactly as the specification sentence of
C4 words it: whenever a numeric target is declared, score
`2 × min(owned, target)` plus a flat `+5` once the target is met;
otherwise the raw owned count. -/
def spec_trait_term (target : Option Int) (owned_count : Nat) : Int :=
  match target with
  | some t => min (owned_count : Int) t * 2 + (if (owned_count : Int) ≥ t then 5 else 0)
  | none => (owned_count : Int)

/-- The trait score as the specification sentence of C4 words it. -/
def spec_trait_score (pack : Pack) (template : Template) (gs : GS) : Int :=
  (template.core_traits.map (fun t =>
    spec_trait_term t.target (owned_count_spec pack gs t.trait))).sum

/-- The per-trait contribution amended to match the code: a declared
target of zero falls back to the raw owned count, because the source
tests the target with Python truthiness. -/
def spec_trait_term_amended (target : Option Int) (owned_count : Nat) : Int :=
  match target with
  | some t =>
    if t ≠ 0 then min (owned_count : Int) t * 2 + (if (owned_count : Int) ≥ t then 5 else 0)
    else (owned_count : Int)
  | none => (owned_count : Int)

/-- The amended trait score: C4's formula restricted to nonzero targets. -/
def spec_trait_score_amended (pack : Pack) (template : Template) (gs : GS) : Int :=
  (template.core_traits.map (fun t =>
    spec_trait_term_amended t.target (owned_count_spec pack gs t.trait))).sum

/-- A recommendation card. -/
structure Card where
  tier : String
  template_id : String
  template_name : String
  set_patch : Option String
  score : Int
  shop_actions : List ShopAction
  item_actions : List ItemAction
  level_plan_hint : Option LevelPlanEntry
  pivot_warnings : List String
  pivot_triggers : List Trigger
  active_pivot_triggers : List Trigger
  reasons : Breakdown
deriving Repr

/-- Descending-by-score comparison used to sort scored templates; ties
compare equal both ways, so the stable merge sort preserves declaration
order among them, as Python's stable `sort(reverse=True)` does. -/
def score_desc (a b : Int × Template × Breakdown) : Bool :=
  decide (b.1 ≤ a.1)

/-- `recommend`: score all templates, sort descending, keep the top
`top_n` and assemble one card per kept template. -/
def recommend (pack : Pack) (templates : List Template) (gs : GS)
    (top_n : Nat := 3) : List Card :=
  let scored := templates.map (fun t =>
    let sb := score_template pack t gs
    (sb.1, t, sb.2))
  let sorted := stable_sort score_desc scored
  let tiers := [("primary"), ("backup"), ("greedy")]
  (sorted.take top_n).enum.map (fun e =>
    let t := e.2.2.1
    let breakdown := e.2.2.2
    let trigs := eval_pivot_triggers t gs
    { tier := tiers.getD e.1 ("option"), template_id := t.id, template_name := t.name,
      set_patch := gs.set_patch, score := e.2.1,
      shop_actions := shop_actions t gs,
      item_actions := item_actions pack t gs breakdown.craftable_now,
      level_plan_hint := t.level_plan.find? (fun p => p.stage == gs.stage),
      pivot_warnings := pivot_warnings t gs,
      pivot_triggers := trigs.1,
      active_pivot_triggers := trigs.2,
      reasons := breakdown })

/-! Generic helper lemmas about the list machinery of the embedding. -/

theorem stable_insert_perm (le : α → α → Bool) (a : α) (l : List α) :
    (stable_insert le a l).Perm (a :: l) := by
  induction l with
  | nil => exact List.Perm.refl _
  | cons b t ih =>
    unfold stable_insert
    split
    · exact (ih.cons b).trans (List.Perm.swap a b t)
    · exact List.Perm.refl _

theorem stable_sort_foldl_perm (le : α → α → Bool) (l acc : List α) :
    (l.foldl (fun acc a => stable_insert le a acc) acc).Perm (acc ++ l) := by
  induction l generalizing acc with
  | nil => simp
  | cons a t ih =>
    refine (ih (stable_insert le a acc)).trans ?_
    refine (((stable_insert_perm le a acc).append_right t).trans ?_)
    exact List.perm_middle.symm

theorem stable_sort_perm (le : α → α → Bool) (l : List α) :
    (stable_sort le l).Perm l :=
  stable_sort_foldl_perm le l []

theorem mem_stable_sort (le : α → α → Bool) (l : List α) (x : α) :
    x ∈ stable_sort le l ↔ x ∈ l :=
  (stable_sort_perm le l).mem_iff

theorem stable_insert_pairwise {le : α → α → Bool}
    (htrans : ∀ a b c, le a b = true → le b c = true → le a c = true)
    (htotal : ∀ a b, le a b = true ∨ le b a = true)
    (a : α) {l : List α} (hl : l.Pairwise (fun x y => le x y = true)) :
    (stable_insert le a l).Pairwise (fun x y => le x y = true) := by
  induction l with
  | nil => simp [stable_insert]
  | cons b t ih =>
    rcases List.pairwise_cons.mp hl with ⟨hb, ht⟩
    unfold stable_insert
    split
    case isTrue hba =>
      refine List.pairwise_cons.mpr ⟨?_, ih ht⟩
      intro x hx
      rcases List.mem_cons.mp ((stable_insert_perm le a t).mem_iff.mp hx) with rfl | hxt
      · exact hba
      · exact hb x hxt
    case isFalse hba =>
      have hab : le a b = true := by
        rcases htotal a b with h | h
        · exact h
        · exact absurd h hba
      refine List.pairwise_cons.mpr ⟨?_, hl⟩
      intro x hx
      rcases List.mem_cons.mp hx with rfl | hxt
      · exact hab
      · exact htrans a b x hab (hb x hxt)

theorem stable_sort_pairwise {le : α → α → Bool}
    (htrans : ∀ a b c, le a b = true → le b c = true → le a c = true)
    (htotal : ∀ a b, le a b = true ∨ le b a = true) (l : List α) :
    (stable_sort le l).Pairwise (fun x y => le x y = true) := by
  suffices h : ∀ acc : List α, acc.Pairwise (fun x y => le x y = true) →
      (l.foldl (fun acc a => stable_insert le a acc) acc).Pairwise
        (fun x y => le x y = true) by
    exact h [] (List.Pairwise.nil)
  induction l with
  | nil => intro acc hacc; exact hacc
  | cons a t ih =>
    intro acc hacc
    exact ih (stable_insert le a acc) (stable_insert_pairwise htrans htotal a hacc)

theorem mem_of_contains {l : List String} {x : String} (h : l.contains x = true) :
    x ∈ l := by
  simpa using h

theorem contains_of_mem {l : List String} {x : String} (h : x ∈ l) :
    l.contains x = true := by
  simpa using h

theorem mem_of_first_on_board {b c : List String} {x : String}
    (h : first_on_board b c = some x) : x ∈ b := by
  have := List.find?_some h
  exact mem_of_contains this

theorem mem_of_find_contains {b : List String} {l : List String} {x : String}
    (h : l.find? (fun u => b.contains u) = some x) : x ∈ b := by
  have := List.find?_some h
  exact mem_of_contains this

theorem headD_mem {l : List String} {d : String} (h : l ≠ []) : l.headD d ∈ l := by
  cases l with
  | nil => exact absurd rfl h
  | cons a t => exact List.mem_cons_self a t

/-- C10: stage parsing is total: a string splitting on the dash into two
parseable integer parts encodes as major*10+minor, every other string
yields 0, and a snapshot whose stage encodes to 0 silences the
contested-carry warning, makes any strictly positive `by_stage` gate
fail, and leaves luxury item actions governed by stability alone. -/
theorem c10_stage_parsing_total :
    (∀ (s x y : String) (a b : Int), py_split s '-' = [x, y] →
        py_int_of_string x = some a → py_int_of_string y = some b →
        stage_to_int s = a * 10 + b) ∧
    (∀ s : String, (∀ x y, py_split s '-' = [x, y] →
        py_int_of_string x = none ∨ py_int_of_string y = none) →
      stage_to_int s = 0) ∧
    (∀ (template : Template) (gs : GS), stage_to_int gs.stage = 0 →
      pivot_warnings template gs = []) ∧
    (∀ (template : Template) (gs : GS) (trig : Trigger) (s : String),
      stage_to_int gs.stage = 0 → trig.by_stage = some s → 0 < stage_to_int s →
      trigger_active template gs trig = false) ∧
    (∀ (pack : Pack) (template : Template) (gs : GS) (item_id : String)
        (meta : DesiredMeta),
      stage_to_int gs.stage = 0 → meta.is_core = false →
      (item_action_for pack template gs item_id meta).action =
        (if gs.observations.stability = "stable" then "hold" else "slam_now")) := by
  refine ⟨?_, ?_, ?_, ?_, ?_⟩
  · intro s x y a b hs hx hy
    simp [stage_to_int, hs, hx, hy]
  · intro s h
    unfold stage_to_int
    cases hs : py_split s '-' with
    | nil => rfl
    | cons x rest =>
      cases rest with
      | nil => rfl
      | cons y rest2 =>
        cases rest2 with
        | nil => rcases h x y hs with h1 | h1 <;> simp [h1]
        | cons z rest3 => rfl
  · intro template gs h
    unfold pivot_warnings
    cases template.carry_plan.primary_carry with
    | none => rfl
    | some p =>
      simp only [h]
      rw [if_neg]
      rintro ⟨h41, _⟩
      omega
  · intro template gs trig s h hby hpos
    unfold trigger_active
    rw [hby, h]
    have hdec : decide (stage_to_int s > 0) = true := by simpa using hpos
    simp [hdec]
  · intro pack template gs item_id meta h hcore
    unfold item_action_for
    simp only [hcore, h, Bool.false_eq_true, if_false]
    by_cases hst : gs.observations.stability = "stable"
    · rw [if_pos hst]
      rw [if_pos ⟨hst, by omega⟩]
    · rw [if_neg hst]
      rw [if_neg]
      rintro ⟨h1, _⟩
      exact hst h1

/-- Closed witness for C10: a well-formed and a malformed stage string. -/
theorem c10_stage_parsing_total_witness :
    stage_to_int ("4-1") = 41 ∧ stage_to_int ("oops") = 0 := by
  constructor
  · have h := c10_stage_parsing_total.1 ("4-1") ("4") ("1") 4 1 (by decide) (by decide)
      (by decide)
    simpa using h
  · refine c10_stage_parsing_total.2.1 ("oops") ?_
    intro x y hxy
    have hsplit : py_split ("oops") '-' = [("oops")] := by decide
    rw [hsplit] at hxy
    simp at hxy

/-- C8: the trigger-consequence normalizer is total: structured dicts
round-trip unchanged, a `tag: message` string with an unrecognized tag
becomes a generic note carrying that tag and message, a string without a
colon becomes a plain note of the string, and non-string non-dict values
degrade to a plain note of their rendering. -/
theorem c8_normalize_then_total :
    (∀ d : List (String × PyVal), normalize_then (.vdict d) = .vdict d) ∧
    (∀ (s : String) (pr : String × String), split_once s ':' = some pr →
      py_strip pr.1 ∉ [("pivot_to_backup_void"), ("hard_pivot"), ("soft_pivot_warning"),
        ("convert_lead"), ("stop_greed")] →
      normalize_then (.vstr s) =
        .vdict [(("action"), .vstr ("note")), (("tag"), .vstr (py_strip pr.1)),
                (("message"), .vstr (py_strip pr.2))]) ∧
    (∀ s : String, split_once s ':' = none →
      normalize_then (.vstr s) =
        .vdict [(("action"), .vstr ("note")), (("message"), .vstr s)]) ∧
    (∀ l : List PyVal, normalize_then (.vlist l) =
      .vdict [(("action"), .vstr ("note")), (("message"), .vstr (py_str_of (.vlist l)))]) ∧
    (∀ r : String, normalize_then (.other r) =
      .vdict [(("action"), .vstr ("note")), (("message"), .vstr (py_str_of (.other r)))]) := by
  refine ⟨fun d => rfl, ?_, ?_, fun l => rfl, fun r => rfl⟩
  · intro s pr hsplit hnot
    simp only [List.mem_cons, List.not_mem_nil, or_false, not_or] at hnot
    obtain ⟨h1, h2, h3, h4, h5⟩ := hnot
    simp only [normalize_then, hsplit]
    rw [if_neg h1, if_neg (by rintro (h | h); exact h2 h; exact h3 h),
      if_neg h4, if_neg h5]
  · intro s hsplit
    simp only [normalize_then, hsplit]

/-- Closed witness for C8 at concrete inputs. -/
theorem c8_normalize_then_total_witness :
    normalize_then (.vdict [(("action"), .vstr ("note"))]) =
      .vdict [(("action"), .vstr ("note"))] ∧
    normalize_then (.vstr ("weird: msg")) =
      .vdict [(("action"), .vstr ("note")), (("tag"), .vstr ("weird")),
              (("message"), .vstr ("msg"))] ∧
    normalize_then (.vstr ("plain")) =
      .vdict [(("action"), .vstr ("note")), (("message"), .vstr ("plain"))] := by
  refine ⟨c8_normalize_then_total.1 _, ?_,
    c8_normalize_then_total.2.2.1 ("plain") (by decide)⟩
  have h := c8_normalize_then_total.2.1 ("weird: msg") ((("weird"), (" msg"))) (by decide)
    (by decide)
  rw [(by decide : py_strip ("weird") = ("weird")),
    (by decide : py_strip (" msg") = ("msg"))] at h
  exact h

theorem le_foldl_max (l : List Int) : ∀ b : Int, b ≤ l.foldl max b := by
  induction l with
  | nil => intro b; exact le_refl b
  | cons x t ih =>
    intro b
    exact le_trans (le_max_left b x) (ih (max b x))

theorem mem_le_foldl_max {l : List Int} {x : Int} (hx : x ∈ l) :
    ∀ b : Int, x ≤ l.foldl max b := by
  induction l with
  | nil => cases hx
  | cons y t ih =>
    intro b
    rcases List.mem_cons.mp hx with rfl | hxt
    · exact le_trans (le_max_right b x) (le_foldl_max t (max b x))
    · exact ih hxt (max b y)

theorem foldl_upd_eq_max (c : String) :
    ∀ (l : List BoardUnit) (b : Int),
      l.foldl (fun best u => if u.champion_id = c then max best u.stars else best) b =
      ((l.filter (fun u => u.champion_id = c)).map (fun u => u.stars)).foldl max b := by
  intro l
  induction l with
  | nil => intro b; rfl
  | cons u t ih =>
    intro b
    by_cases h : u.champion_id = c
    · rw [List.foldl_cons, if_pos h, List.filter_cons_of_pos (by simp [h]),
        List.map_cons, List.foldl_cons]
      exact ih (max b u.stars)
    · rw [List.foldl_cons, if_neg h, List.filter_cons_of_neg (by simp [h])]
      exact ih b

theorem unit_stars_eq_highest (gs : GS) (c : String) :
    unit_stars gs c = highest_owned_stars gs c := by
  unfold unit_stars highest_owned_stars
  rw [← List.foldl_append]
  exact foldl_upd_eq_max c (gs.board ++ gs.bench) 0

/-- C7: the `if_miss` gate with no star suffix passes exactly when no
copy of the champion is owned on board or bench; with a star suffix it
passes exactly when the highest owned star level is strictly below it. -/
theorem c7_if_miss_gate :
    ∀ (gs : GS) (token champ : String),
      (∀ u ∈ gs.board ++ gs.bench, 1 ≤ u.stars) →
      ((parse_miss_token token = (champ, none) →
        (miss_passes gs token = true ↔
          champ ∉ (gs.board ++ gs.bench).map (fun u => u.champion_id))) ∧
       (∀ n : Int, parse_miss_token token = (champ, some n) →
        (miss_passes gs token = true ↔ highest_owned_stars gs champ < n))) := by
  intro gs token champ hstars
  constructor
  · intro hparse
    unfold miss_passes
    rw [hparse]
    simp only [decide_eq_true_eq]
    rw [unit_stars_eq_highest]
    constructor
    · intro hle hmem
      rcases List.mem_map.mp hmem with ⟨u, hu, huc⟩
      have h1 : u.stars ≤ highest_owned_stars gs champ := by
        unfold highest_owned_stars
        refine mem_le_foldl_max ?_ 0
        exact List.mem_map.mpr ⟨u, List.mem_filter.mpr ⟨hu, by simpa using huc⟩, rfl⟩
      have h2 := hstars u hu
      omega
    · intro hnot
      have hfil : (gs.board ++ gs.bench).filter (fun u => u.champion_id = champ) = [] := by
        rw [List.filter_eq_nil_iff]
        intro u hu hc
        exact hnot (List.mem_map.mpr ⟨u, hu, by simpa using hc⟩)
      unfold highest_owned_stars
      rw [hfil]
      exact le_refl 0
  · intro n hparse
    unfold miss_passes
    rw [hparse]
    simp only [decide_eq_true_eq]
    rw [unit_stars_eq_highest]

/-- Closed witness for C7: the `ekko_3` scenario of the specification. -/
theorem c7_if_miss_gate_witness :
    miss_passes ⟨("3-2"), [⟨("ekko"), 2⟩], [], [], ⟨("stable"), []⟩, none⟩ ("ekko_3") = true ∧
    miss_passes ⟨("3-2"), [⟨("ekko"), 3⟩], [], [], ⟨("stable"), []⟩, none⟩ ("ekko_3") = false := by
  constructor
  · exact ((c7_if_miss_gate ⟨("3-2"), [⟨("ekko"), 2⟩], [], [], ⟨("stable"), []⟩, none⟩
      ("ekko_3") ("ekko") (by decide)).2 3 (by decide)).mpr (by decide)
  · have h := (c7_if_miss_gate ⟨("3-2"), [⟨("ekko"), 3⟩], [], [], ⟨("stable"), []⟩, none⟩
      ("ekko_3") ("ekko") (by decide)).2 3 (by decide)
    have h2 : ¬ (miss_passes ⟨("3-2"), [⟨("ekko"), 3⟩], [], [], ⟨("stable"), []⟩, none⟩
        ("ekko_3") = true) := by
      rw [h]; decide
    simpa using h2

theorem contains_eq_decide_mem (l : List String) (x : String) :
    l.contains x = decide (x ∈ l) := by
  cases hc : l.contains x
  · have hnm : x ∉ l := fun hm => by rw [contains_of_mem hm] at hc; cases hc
    rw [decide_eq_false hnm]
  · rw [decide_eq_true (mem_of_contains hc)]

/-- C9: `unit_score` is ten points per owned required unit plus two per
owned core unit, and adding one of the template's required or core units
to board or bench never decreases it. -/
theorem c9_unit_score_monotone :
    ∀ (pack : Pack) (template : Template) (gs : GS) (u : BoardUnit),
      ((score_template pack template gs).2.unit_score =
        10 * (template.units.required.countP (fun x =>
          decide (x ∈ gs.board.map (fun w => w.champion_id) ++
            gs.bench.map (fun w => w.champion_id)))) +
        2 * (template.units.core.countP (fun x =>
          decide (x ∈ gs.board.map (fun w => w.champion_id) ++
            gs.bench.map (fun w => w.champion_id))))) ∧
      (u.champion_id ∈ template.units.required ∨ u.champion_id ∈ template.units.core →
        (score_template pack template { gs with board := gs.board ++ [u] }).2.unit_score ≥
          (score_template pack template gs).2.unit_score ∧
        (score_template pack template { gs with bench := gs.bench ++ [u] }).2.unit_score ≥
          (score_template pack template gs).2.unit_score) := by
  intro pack template gs u
  have hscore : ∀ gs' : GS, (score_template pack template gs').2.unit_score =
      ((template.units.required.countP (fun x =>
        (gs'.board.map (fun w => w.champion_id) ++
          gs'.bench.map (fun w => w.champion_id)).contains x)) : Int) * 10 +
      ((template.units.core.countP (fun x =>
        (gs'.board.map (fun w => w.champion_id) ++
          gs'.bench.map (fun w => w.champion_id)).contains x)) : Int) * 2 := by
    intro gs'
    rfl
  have hcongr : ∀ (l ll : List String),
      ll.countP (fun x => l.contains x) = ll.countP (fun x => decide (x ∈ l)) := by
    intro l ll
    refine List.countP_congr ?_
    intro x _
    rw [contains_eq_decide_mem]
  constructor
  · rw [hscore gs, hcongr, hcongr]
    ring
  · intro _
    have hkey : ∀ gs₂ : GS,
        (∀ x : String, x ∈ gs.board.map (fun w => w.champion_id) ++
            gs.bench.map (fun w => w.champion_id) →
          x ∈ gs₂.board.map (fun w => w.champion_id) ++
            gs₂.bench.map (fun w => w.champion_id)) →
        (score_template pack template gs₂).2.unit_score ≥
          (score_template pack template gs).2.unit_score := by
      intro gs₂ hsub
      rw [hscore gs, hscore gs₂]
      have hmono : ∀ l : List String,
          l.countP (fun x => (gs.board.map (fun w => w.champion_id) ++
            gs.bench.map (fun w => w.champion_id)).contains x) ≤
          l.countP (fun x => (gs₂.board.map (fun w => w.champion_id) ++
            gs₂.bench.map (fun w => w.champion_id)).contains x) := by
        intro l
        refine List.countP_mono_left ?_
        intro x _ hx
        exact contains_of_mem (hsub x (mem_of_contains hx))
      have h1 := hmono template.units.required
      have h2 := hmono template.units.core
      omega
    constructor
    · refine hkey _ ?_
      intro x hx
      simp only [List.map_append, List.map_cons, List.map_nil] at *
      rcases List.mem_append.mp hx with h | h
      · exact List.mem_append.mpr (Or.inl (List.mem_append.mpr (Or.inl h)))
      · exact List.mem_append.mpr (Or.inr h)
    · refine hkey _ ?_
      intro x hx
      simp only [List.map_append, List.map_cons, List.map_nil] at *
      rcases List.mem_append.mp hx with h | h
      · exact List.mem_append.mpr (Or.inl h)
      · exact List.mem_append.mpr (Or.inr (List.mem_append.mpr (Or.inl h)))

/-- Closed witness for C9: adding the required unit `c1` to an empty
board does not decrease `unit_score`. -/
theorem c9_unit_score_monotone_witness :
    (score_template ⟨[], [], []⟩
        ⟨("t"), ("t"), ⟨[("c1")], []⟩, [], ⟨none, none, none, []⟩, ⟨[], [], []⟩, [], [], []⟩
        { stage := (""), board := [] ++ [⟨("c1"), 1⟩], bench := [], inventory := [],
          observations := ⟨("unknown"), []⟩, set_patch := none }).2.unit_score ≥
      (score_template ⟨[], [], []⟩
        ⟨("t"), ("t"), ⟨[("c1")], []⟩, [], ⟨none, none, none, []⟩, ⟨[], [], []⟩, [], [], []⟩
        ⟨(""), [], [], [], ⟨("unknown"), []⟩, none⟩).2.unit_score :=
  ((c9_unit_score_monotone ⟨[], [], []⟩
    ⟨("t"), ("t"), ⟨[("c1")], []⟩, [], ⟨none, none, none, []⟩, ⟨[], [], []⟩, [], [], []⟩
    ⟨(""), [], [], [], ⟨("unknown"), []⟩, none⟩ ⟨("c1"), 1⟩).2
    (Or.inl (by decide))).1

theorem sum_map_ite_eq_length_filter (l : List String) (g : String → Bool) :
    (l.map (fun uid => if g uid then 1 else 0)).sum = (l.filter g).length := by
  induction l with
  | nil => rfl
  | cons x t ih =>
    by_cases h : g x
    · rw [List.map_cons, if_pos h, List.filter_cons_of_pos h, List.sum_cons,
        List.length_cons, ih]
      omega
    · rw [List.map_cons, if_neg h, List.filter_cons_of_neg (by simpa using h),
        List.sum_cons, ih]
      omega

theorem count_traits_eq_owned_count (pack : Pack) (gs : GS) (tid : String)
    (hnd : ∀ c ∈ pack.champions, c.traits.Nodup) :
    count_traits pack (gs.board.map (fun u => u.champion_id)) tid =
      owned_count_spec pack gs tid := by
  unfold count_traits owned_count_spec
  rw [← sum_map_ite_eq_length_filter]
  congr 1
  refine List.map_congr_left ?_
  intro uid _
  unfold champ_grants
  cases hf : pack.champions.find? (fun c => c.id == uid) with
  | none => rfl
  | some c =>
    have hc : c ∈ pack.champions := List.mem_of_find?_eq_some hf
    show c.traits.count tid = if c.traits.contains tid = true then 1 else 0
    by_cases hmem : tid ∈ c.traits
    · rw [List.count_eq_one_of_mem (hnd c hc) hmem, if_pos (contains_of_mem hmem)]
    · rw [List.count_eq_zero_of_not_mem hmem, if_neg]
      intro hcon
      exact hmem (mem_of_contains hcon)

theorem trait_term_eq_amended (target : Option Int) (hc : Nat) :
    trait_term target hc = spec_trait_term_amended target hc := by
  cases target with
  | none => rfl
  | some t =>
    by_cases h : t = 0
    · subst h
      simp [trait_term, spec_trait_term_amended, py_truthy_int]
    · simp [trait_term, spec_trait_term_amended, py_truthy_int, h]

/-- C4 counterexample: a trait with a declared numeric target of 0 and
one owning board unit.  The claim's formula (`spec_trait_score`) gives
`2*min(1,0) + 5 = 5`, but the code's Python truthiness test skips a zero
target and scores the raw owned count 1. -/
theorem c4_trait_score_counterexample :
    (∀ c ∈ (⟨[⟨("c1"), 1, [("t1")]⟩], [], []⟩ : Pack).champions, c.traits.Nodup) ∧
    (score_template (⟨[⟨("c1"), 1, [("t1")]⟩], [], []⟩ : Pack)
        ⟨("t"), ("t"), ⟨[], []⟩, [⟨("t1"), some 0⟩], ⟨none, none, none, []⟩,
          ⟨[], [], []⟩, [], [], []⟩
        ⟨(""), [⟨("c1"), 1⟩], [], [], ⟨("unknown"), []⟩, none⟩).2.trait_score = 1 ∧
    spec_trait_score (⟨[⟨("c1"), 1, [("t1")]⟩], [], []⟩ : Pack)
        ⟨("t"), ("t"), ⟨[], []⟩, [⟨("t1"), some 0⟩], ⟨none, none, none, []⟩,
          ⟨[], [], []⟩, [], [], []⟩
        ⟨(""), [⟨("c1"), 1⟩], [], [], ⟨("unknown"), []⟩, none⟩ = 5 := by
  refine ⟨by decide, by decide, by decide⟩

/-- C4 amended: the trait score is the claim's per-trait formula with the
target case restricted to nonzero declared targets (a zero target falls
back to the raw owned count), summed over the template's core traits,
with the owned count being the number of fielded units granting the
trait. -/
theorem c4_trait_score_amended :
    ∀ (pack : Pack) (template : Template) (gs : GS),
      (∀ c ∈ pack.champions, c.traits.Nodup) →
      (score_template pack template gs).2.trait_score =
        spec_trait_score_amended pack template gs := by
  intro pack template gs hnd
  have hts : (score_template pack template gs).2.trait_score =
      (template.core_traits.map (fun t =>
        trait_term t.target
          (count_traits pack (gs.board.map (fun u => u.champion_id)) t.trait))).sum := rfl
  rw [hts]
  unfold spec_trait_score_amended
  congr 1
  refine List.map_congr_left ?_
  intro t _
  rw [count_traits_eq_owned_count pack gs t.trait hnd, trait_term_eq_amended]

/-- Closed witness for C4's amended theorem with a nonzero target. -/
theorem c4_trait_score_amended_witness :
    (score_template (⟨[⟨("c1"), 1, [("t1")]⟩], [], []⟩ : Pack)
        ⟨("t"), ("t"), ⟨[], []⟩, [⟨("t1"), some 3⟩], ⟨none, none, none, []⟩,
          ⟨[], [], []⟩, [], [], []⟩
        ⟨(""), [⟨("c1"), 1⟩], [], [], ⟨("unknown"), []⟩, none⟩).2.trait_score =
      spec_trait_score_amended (⟨[⟨("c1"), 1, [("t1")]⟩], [], []⟩ : Pack)
        ⟨("t"), ("t"), ⟨[], []⟩, [⟨("t1"), some 3⟩], ⟨none, none, none, []⟩,
          ⟨[], [], []⟩, [], [], []⟩
        ⟨(""), [⟨("c1"), 1⟩], [], [], ⟨("unknown"), []⟩, none⟩ :=
  c4_trait_score_amended (⟨[⟨("c1"), 1, [("t1")]⟩], [], []⟩ : Pack)
    ⟨("t"), ("t"), ⟨[], []⟩, [⟨("t1"), some 3⟩], ⟨none, none, none, []⟩,
      ⟨[], [], []⟩, [], [], []⟩
    ⟨(""), [⟨("c1"), 1⟩], [], [], ⟨("unknown"), []⟩, none⟩ (by decide)

theorem chars_le_total : ∀ a b : List Char, chars_le a b = true ∨ chars_le b a = true := by
  intro a
  induction a with
  | nil => intro b; exact Or.inl rfl
  | cons x xs ih =>
    intro b
    cases b with
    | nil => exact Or.inr rfl
    | cons y ys =>
      by_cases hxy : x = y
      · subst hxy
        rcases ih ys with h | h
        · left; simpa [chars_le] using h
        · right; simpa [chars_le] using h
      · rcases lt_or_gt_of_ne hxy with h | h
        · left
          simp [chars_le, hxy, h]
        · right
          have hyx : y ≠ x := fun he => hxy he.symm
          simp [chars_le, hyx, h]

theorem chars_le_trans : ∀ a b c : List Char,
    chars_le a b = true → chars_le b c = true → chars_le a c = true := by
  intro a
  induction a with
  | nil => intro b c _ _; rfl
  | cons x xs ih =>
    intro b c hab hbc
    cases b with
    | nil => simp [chars_le] at hab
    | cons y ys =>
      cases c with
      | nil => simp [chars_le] at hbc
      | cons z zs =>
        by_cases hxy : x = y <;> by_cases hyz : y = z
        · subst hxy; subst hyz
          simp only [chars_le, if_pos rfl] at *
          exact ih ys zs hab hbc
        · subst hxy
          simp only [chars_le, if_pos rfl] at hab
          simpa [chars_le, hyz] using hbc
        · subst hyz
          simpa [chars_le, hxy] using hab
        · simp only [chars_le, if_neg hxy, decide_eq_true_eq] at hab
          simp only [chars_le, if_neg hyz, decide_eq_true_eq] at hbc
          have hxz : x < z := lt_trans hab hbc
          simp [chars_le, ne_of_lt hxz, hxz]

theorem py_str_le_total : ∀ a b : String, py_str_le a b = true ∨ py_str_le b a = true :=
  fun a b => chars_le_total a.data b.data

theorem py_str_le_trans : ∀ a b c : String,
    py_str_le a b = true → py_str_le b c = true → py_str_le a c = true :=
  fun a b c => chars_le_trans a.data b.data c.data

/-- C2: an item id is craftable exactly when it names a completed
catalog item with two components whose component multiset sits inside
the inventory multiset; the output is sorted, has no duplicate when the
catalog ids are distinct, and is invariant under inventory reordering. -/
theorem c2_craftable_items_spec :
    ∀ (pack : Pack) (inventory : List String),
      (∀ x : String, x ∈ craftable_items pack inventory ↔
        ∃ it ∈ pack.items, it.id = x ∧ it.kind = "completed" ∧
          it.components.length = 2 ∧
          ∀ c : String, it.components.count c ≤ inventory.count c) ∧
      (craftable_items pack inventory).Pairwise (fun a b => py_str_le a b = true) ∧
      ((pack.items.map Item.id).Nodup → (craftable_items pack inventory).Nodup) ∧
      (∀ inventory₂ : List String, inventory.Perm inventory₂ →
        craftable_items pack inventory = craftable_items pack inventory₂) := by
  intro pack inventory
  refine ⟨?_, ?_, ?_, ?_⟩
  · intro x
    unfold craftable_items
    rw [mem_stable_sort, List.mem_map]
    constructor
    · rintro ⟨it, hit, rfl⟩
      rcases List.mem_filter.mp hit with ⟨hmem, hcond⟩
      rcases decide_eq_true_eq.mp hcond with ⟨hk, hl, hc⟩
      refine ⟨it, hmem, rfl, hk, hl, ?_⟩
      intro c
      by_cases hcm : c ∈ it.components
      · exact hc c (List.mem_dedup.mpr hcm)
      · rw [List.count_eq_zero_of_not_mem hcm]
        exact Nat.zero_le _
    · rintro ⟨it, hmem, rfl, hk, hl, hc⟩
      refine ⟨it, List.mem_filter.mpr ⟨hmem, ?_⟩, rfl⟩
      refine decide_eq_true_eq.mpr ⟨hk, hl, ?_⟩
      intro c _
      exact hc c
  · exact stable_sort_pairwise py_str_le_trans py_str_le_total _
  · intro hnd
    unfold craftable_items
    rw [(stable_sort_perm py_str_le _).nodup_iff]
    refine List.Sublist.nodup ?_ hnd
    exact List.Sublist.map Item.id (List.filter_sublist pack.items)
  · intro inventory₂ hp
    unfold craftable_items
    have hcount : ∀ c : String, inventory.count c = inventory₂.count c :=
      fun c => hp.count_eq c
    have hfil : ∀ it : Item, it ∈ pack.items →
        decide (it.kind = "completed" ∧ it.components.length = 2 ∧
          (∀ c ∈ it.components.dedup, it.components.count c ≤ inventory.count c)) =
        decide (it.kind = "completed" ∧ it.components.length = 2 ∧
          (∀ c ∈ it.components.dedup, it.components.count c ≤ inventory₂.count c)) := by
      intro it _
      refine decide_eq_decide.mpr ?_
      simp only [hcount]
    rw [List.filter_congr hfil]

/-- Closed witness for C2: the `bf_sword+bf_sword` scenario. -/
theorem c2_craftable_items_spec_witness :
    ("bf2") ∈ craftable_items
      ⟨[], [⟨("bf2"), ("completed"), [("bf_sword"), ("bf_sword")], []⟩,
           ⟨("ie"), ("completed"), [("bf_sword"), ("glove")], []⟩], []⟩
      [("bf_sword"), ("bf_sword"), ("chain_vest")] ∧
    (craftable_items
      ⟨[], [⟨("bf2"), ("completed"), [("bf_sword"), ("bf_sword")], []⟩,
           ⟨("ie"), ("completed"), [("bf_sword"), ("glove")], []⟩], []⟩
      [("bf_sword"), ("bf_sword"), ("chain_vest")]).Nodup := by
  constructor
  · refine ((c2_craftable_items_spec
      ⟨[], [⟨("bf2"), ("completed"), [("bf_sword"), ("bf_sword")], []⟩,
           ⟨("ie"), ("completed"), [("bf_sword"), ("glove")], []⟩], []⟩
      [("bf_sword"), ("bf_sword"), ("chain_vest")]).1 ("bf2")).mpr ?_
    refine ⟨⟨("bf2"), ("completed"), [("bf_sword"), ("bf_sword")], []⟩,
      by decide, rfl, rfl, rfl, ?_⟩
    intro c
    by_cases h : c = ("bf_sword")
    · subst h; decide
    · rw [List.count_eq_zero_of_not_mem (by simp [h])]
      exact Nat.zero_le _
  · exact (c2_craftable_items_spec
      ⟨[], [⟨("bf2"), ("completed"), [("bf_sword"), ("bf_sword")], []⟩,
           ⟨("ie"), ("completed"), [("bf_sword"), ("glove")], []⟩], []⟩
      [("bf_sword"), ("bf_sword"), ("chain_vest")]).2.2.1 (by decide)

theorem if_chain6 (s1 s2 s3 s4 s5 s6 : Bool) :
    (if s1 then false else if s2 then false else if s3 then false
     else if s4 then false else if s5 then false else if s6 then false else true) =
    (!s1 && !s2 && !s3 && !s4 && !s5 && !s6) := by
  cases s1 <;> cases s2 <;> cases s3 <;> cases s4 <;> cases s5 <;> cases s6 <;> rfl

theorem trigger_active_eq_passes (template : Template) (gs : GS) (trig : Trigger) :
    trigger_active template gs trig =
      (pass_by_stage gs trig && pass_if_stable gs trig && pass_if_unstable gs trig &&
       pass_if_contested template gs trig && pass_if_uncontested template gs trig &&
       pass_if_miss gs trig) := by
  unfold trigger_active
  rw [if_chain6]
  have h1 : (!(match trig.by_stage with
      | some s => decide (stage_to_int s > stage_to_int gs.stage)
      | none => false)) = pass_by_stage gs trig := by
    unfold pass_by_stage
    cases trig.by_stage with
    | none => rfl
    | some s =>
      rw [← decide_not]
      simp [not_lt]
  have h2 : (!(trig.if_stable && decide (gs.observations.stability ≠ "stable"))) =
      pass_if_stable gs trig := by
    unfold pass_if_stable
    cases trig.if_stable with
    | false => rfl
    | true => simp [not_not]
  have h3 : (!(trig.if_unstable && decide (gs.observations.stability = "stable"))) =
      pass_if_unstable gs trig := by
    unfold pass_if_unstable
    cases trig.if_unstable with
    | false => rfl
    | true => simp
  have h4 : (!(trig.if_contested &&
      !(py_truthy_str (py_or_str trig.contested_unit template.carry_plan.primary_carry) &&
        gs.observations.contested_units.contains
          ((py_or_str trig.contested_unit template.carry_plan.primary_carry).getD (""))))) =
      pass_if_contested template gs trig := by
    unfold pass_if_contested trigger_who
    cases trig.if_contested with
    | false => rfl
    | true => simp
  have h5 : (!(trig.if_uncontested &&
      (py_truthy_str (py_or_str trig.contested_unit template.carry_plan.primary_carry) &&
        gs.observations.contested_units.contains
          ((py_or_str trig.contested_unit template.carry_plan.primary_carry).getD (""))))) =
      pass_if_uncontested template gs trig := by
    unfold pass_if_uncontested trigger_who
    cases trig.if_uncontested with
    | false => rfl
    | true => simp
  have h6 : (!(match trig.if_miss with
      | some tok =>
        match (parse_miss_token tok).2 with
        | none => decide (unit_stars gs (parse_miss_token tok).1 > 0)
        | some stars => decide (unit_stars gs (parse_miss_token tok).1 ≥ stars)
      | none => false)) = pass_if_miss gs trig := by
    unfold pass_if_miss miss_passes
    cases trig.if_miss with
    | none => rfl
    | some tok =>
      cases hpm : (parse_miss_token tok).2 with
      | none =>
        simp only [hpm]
        rw [← decide_not]
        simp [not_lt]
      | some stars =>
        simp only [hpm]
        rw [← decide_not]
        simp [not_le]
  rw [h1, h2, h3, h4, h5, h6]

/-- C6: a trigger is active iff every present gate passes (absent gates
are vacuous), and adding any single failing gate to an otherwise active
trigger makes it inactive; membership in the active output list of
`eval_pivot_triggers` is exactly activeness among the normalized
triggers. -/
theorem c6_trigger_gates_conjunctive :
    ∀ (template : Template) (gs : GS) (trig : Trigger),
      (trigger_active template gs trig = true ↔
        (pass_by_stage gs trig = true ∧ pass_if_stable gs trig = true ∧
         pass_if_unstable gs trig = true ∧ pass_if_contested template gs trig = true ∧
         pass_if_uncontested template gs trig = true ∧ pass_if_miss gs trig = true)) ∧
      (trig ∈ (eval_pivot_triggers template gs).2 ↔
        trig ∈ (eval_pivot_triggers template gs).1 ∧
          trigger_active template gs trig = true) ∧
      (trigger_active template gs trig = true →
        (∀ s, pass_by_stage gs { trig with by_stage := some s } = false →
          trigger_active template gs { trig with by_stage := some s } = false) ∧
        (pass_if_stable gs { trig with if_stable := true } = false →
          trigger_active template gs { trig with if_stable := true } = false) ∧
        (pass_if_unstable gs { trig with if_unstable := true } = false →
          trigger_active template gs { trig with if_unstable := true } = false) ∧
        (pass_if_contested template gs { trig with if_contested := true } = false →
          trigger_active template gs { trig with if_contested := true } = false) ∧
        (pass_if_uncontested template gs { trig with if_uncontested := true } = false →
          trigger_active template gs { trig with if_uncontested := true } = false) ∧
        (∀ tok, pass_if_miss gs { trig with if_miss := some tok } = false →
          trigger_active template gs { trig with if_miss := some tok } = false)) := by
  intro template gs trig
  have hiff : ∀ trig' : Trigger, trigger_active template gs trig' = true ↔
      (pass_by_stage gs trig' = true ∧ pass_if_stable gs trig' = true ∧
       pass_if_unstable gs trig' = true ∧ pass_if_contested template gs trig' = true ∧
       pass_if_uncontested template gs trig' = true ∧ pass_if_miss gs trig' = true) := by
    intro trig'
    rw [trigger_active_eq_passes]
    simp [Bool.and_eq_true, and_assoc]
  have hkill : ∀ trig' : Trigger,
      (pass_by_stage gs trig' = false ∨ pass_if_stable gs trig' = false ∨
       pass_if_unstable gs trig' = false ∨ pass_if_contested template gs trig' = false ∨
       pass_if_uncontested template gs trig' = false ∨ pass_if_miss gs trig' = false) →
      trigger_active template gs trig' = false := by
    intro trig' hfail
    cases hact : trigger_active template gs trig' with
    | false => rfl
    | true =>
      rcases (hiff trig').mp hact with ⟨p1, p2, p3, p4, p5, p6⟩
      rcases hfail with h | h | h | h | h | h
      · rw [p1] at h; exact Bool.noConfusion h
      · rw [p2] at h; exact Bool.noConfusion h
      · rw [p3] at h; exact Bool.noConfusion h
      · rw [p4] at h; exact Bool.noConfusion h
      · rw [p5] at h; exact Bool.noConfusion h
      · rw [p6] at h; exact Bool.noConfusion h
  refine ⟨hiff trig, ?_, ?_⟩
  · unfold eval_pivot_triggers
    simp [List.mem_filter]
  · intro _
    exact ⟨fun s h => hkill _ (Or.inl h),
      fun h => hkill _ (Or.inr (Or.inl h)),
      fun h => hkill _ (Or.inr (Or.inr (Or.inl h))),
      fun h => hkill _ (Or.inr (Or.inr (Or.inr (Or.inl h)))),
      fun h => hkill _ (Or.inr (Or.inr (Or.inr (Or.inr (Or.inl h))))),
      fun tok h => hkill _ (Or.inr (Or.inr (Or.inr (Or.inr (Or.inr h)))))⟩

/-- Closed witness for C6: a gate-free trigger is active on an unstable
snapshot, and adding a failing `if_stable` gate deactivates it. -/
theorem c6_trigger_gates_conjunctive_witness :
    trigger_active
      ⟨("t"), ("t"), ⟨[], []⟩, [], ⟨none, none, none, []⟩, ⟨[], [], []⟩, [], [], []⟩
      ⟨("3-2"), [], [], [], ⟨("unstable"), []⟩, none⟩
      ⟨none, false, false, false, false, none, none, .vstr ("")⟩ = true ∧
    trigger_active
      ⟨("t"), ("t"), ⟨[], []⟩, [], ⟨none, none, none, []⟩, ⟨[], [], []⟩, [], [], []⟩
      ⟨("3-2"), [], [], [], ⟨("unstable"), []⟩, none⟩
      ⟨none, true, false, false, false, none, none, .vstr ("")⟩ = false := by
  have h := c6_trigger_gates_conjunctive
    ⟨("t"), ("t"), ⟨[], []⟩, [], ⟨none, none, none, []⟩, ⟨[], [], []⟩, [], [], []⟩
    ⟨("3-2"), [], [], [], ⟨("unstable"), []⟩, none⟩
    ⟨none, false, false, false, false, none, none, .vstr ("")⟩
  have hact : trigger_active
      ⟨("t"), ("t"), ⟨[], []⟩, [], ⟨none, none, none, []⟩, ⟨[], [], []⟩, [], [], []⟩
      ⟨("3-2"), [], [], [], ⟨("unstable"), []⟩, none⟩
      ⟨none, false, false, false, false, none, none, .vstr ("")⟩ = true :=
    h.1.mpr ⟨by decide, by decide, by decide, by decide, by decide, by decide⟩
  exact ⟨hact, (h.2.2 hact).2.1 (by decide)⟩

theorem foldl_lookup_some {α : Type} :
    ∀ (l : List (String × α)) (k : String) (acc : Option α) (m : α),
      l.foldl (fun acc e => if e.1 = k then some e.2 else acc) acc = some m →
      (k, m) ∈ l ∨ acc = some m := by
  intro l
  induction l with
  | nil => intro k acc m h; exact Or.inr h
  | cons e t ih =>
    intro k acc m h
    rcases ih k _ m h with hmem | hacc
    · exact Or.inl (List.mem_cons_of_mem _ hmem)
    · simp only [] at hacc
      by_cases he : e.1 = k
      · rw [if_pos he] at hacc
        have hm : e.2 = m := Option.some.inj hacc
        left
        have hkm : (k, m) = e := by rw [← he, ← hm]
        rw [hkm]
        exact List.mem_cons_self e t
      · rw [if_neg he] at hacc
        exact Or.inr hacc

theorem desired_lookup_some_mem {template : Template} {item_id : String}
    {meta : DesiredMeta} (h : desired_lookup template item_id = some meta) :
    (item_id, meta) ∈ desired_items_index template := by
  unfold desired_lookup at h
  rcases foldl_lookup_some (desired_items_index template) item_id none meta h with hm | hc
  · exact hm
  · exact Option.noConfusion hc

theorem desired_index_entry_core {template : Template} {pr : String × DesiredMeta}
    (h : pr ∈ desired_items_index template) :
    pr.2.is_core = decide (pr.2.priority_index < 2) := by
  unfold desired_items_index at h
  rcases List.mem_flatMap.mp h with ⟨plan, _, hpr⟩
  rcases List.mem_map.mp hpr with ⟨e, _, rfl⟩
  rfl

theorem mem_item_actions_iff (pack : Pack) (template : Template) (gs : GS)
    (craftable_now : List String) (a : ItemAction) :
    a ∈ item_actions pack template gs craftable_now ↔
      ∃ item_id ∈ craftable_now, ∃ meta : DesiredMeta,
        desired_lookup template item_id = some meta ∧
        a = item_action_for pack template gs item_id meta := by
  unfold item_actions
  rw [mem_stable_sort, List.mem_filterMap]
  constructor
  · rintro ⟨item_id, hmem, hf⟩
    rcases Option.map_eq_some'.mp hf with ⟨meta, hl, rfl⟩
    exact ⟨item_id, hmem, meta, hl, rfl⟩
  · rintro ⟨item_id, hmem, meta, hl, rfl⟩
    refine ⟨item_id, hmem, ?_⟩
    rw [hl]
    rfl

theorem item_action_rule (pack : Pack) (template : Template) (gs : GS)
    (item_id : String) (meta : DesiredMeta)
    (hcore : meta.is_core = decide (meta.priority_index < 2)) :
    (item_action_for pack template gs item_id meta).item_id = item_id ∧
    (item_action_for pack template gs item_id meta).slot_index = meta.priority_index ∧
    (item_action_for pack template gs item_id meta).action =
      (if meta.priority_index = 0 ∨ meta.priority_index = 1 then ("slam_now")
       else if gs.observations.stability = "stable" ∧ stage_to_int gs.stage ≤ 40
       then ("hold") else ("slam_now")) := by
  refine ⟨rfl, rfl, ?_⟩
  have hcond : (meta.priority_index = 0 ∨ meta.priority_index = 1) ↔
      meta.priority_index < 2 := by omega
  rw [if_congr hcond rfl rfl]
  unfold item_action_for
  by_cases h : meta.priority_index < 2
  · rw [if_pos h]
    have hc : meta.is_core = true := by rw [hcore]; exact decide_eq_true h
    simp [hc]
  · rw [if_neg h]
    have hc : meta.is_core = false := by rw [hcore]; exact decide_eq_false h
    by_cases h2 : gs.observations.stability = "stable" ∧ stage_to_int gs.stage ≤ 40
    · simp [hc, h2]
    · simp [hc, h2]

/-- C1: every craftable item the template wants yields exactly one
planned action; it is `slam_now` when the item sits at priority index 0
or 1 of its holder's plan, and a luxury item is `hold` exactly when the
snapshot is stable with stage encoding at most 40, `slam_now` otherwise. -/
theorem c1_item_actions_core_luxury :
    ∀ (pack : Pack) (template : Template) (gs : GS) (craftable_now : List String),
      (∀ item_id ∈ craftable_now, ∀ meta : DesiredMeta,
        desired_lookup template item_id = some meta →
        ∃ a ∈ item_actions pack template gs craftable_now,
          a.item_id = item_id ∧ a.slot_index = meta.priority_index ∧
          a.action = (if meta.priority_index = 0 ∨ meta.priority_index = 1 then ("slam_now")
            else if gs.observations.stability = "stable" ∧ stage_to_int gs.stage ≤ 40
            then ("hold") else ("slam_now"))) ∧
      (∀ a ∈ item_actions pack template gs craftable_now,
        ∃ meta : DesiredMeta, desired_lookup template a.item_id = some meta ∧
          a.slot_index = meta.priority_index ∧
          a.action = (if meta.priority_index = 0 ∨ meta.priority_index = 1 then ("slam_now")
            else if gs.observations.stability = "stable" ∧ stage_to_int gs.stage ≤ 40
            then ("hold") else ("slam_now"))) := by
  intro pack template gs craftable_now
  constructor
  · intro item_id hmem meta hl
    have hcore := desired_index_entry_core (desired_lookup_some_mem hl)
    obtain ⟨hid, hslot, hact⟩ := item_action_rule pack template gs item_id meta hcore
    refine ⟨item_action_for pack template gs item_id meta, ?_, hid, hslot, hact⟩
    exact (mem_item_actions_iff pack template gs craftable_now _).mpr
      ⟨item_id, hmem, meta, hl, rfl⟩
  · intro a ha
    rcases (mem_item_actions_iff pack template gs craftable_now a).mp ha with
      ⟨item_id, hmem, meta, hl, rfl⟩
    have hcore := desired_index_entry_core (desired_lookup_some_mem hl)
    obtain ⟨hid, hslot, hact⟩ := item_action_rule pack template gs item_id meta hcore
    refine ⟨meta, ?_, hslot, hact⟩
    rw [hid]
    exact hl

/-- Closed witness for C1: holder plan `[A, B, C]`, stability `stable`,
stage `3-2`: A (index 0) is slammed, C (index 2) is held. -/
theorem c1_item_actions_core_luxury_witness :
    (∃ a ∈ item_actions ⟨[], [], []⟩
        ⟨("t"), ("t"), ⟨[], []⟩, [], ⟨none, none, none, []⟩, ⟨[], [], []⟩,
          [⟨("h1"), [("A"), ("B"), ("C")]⟩], [], []⟩
        ⟨("3-2"), [], [], [], ⟨("stable"), []⟩, none⟩ [("A"), ("C")],
      a.item_id = ("A") ∧ a.slot_index = 0 ∧ a.action = ("slam_now")) ∧
    (∃ a ∈ item_actions ⟨[], [], []⟩
        ⟨("t"), ("t"), ⟨[], []⟩, [], ⟨none, none, none, []⟩, ⟨[], [], []⟩,
          [⟨("h1"), [("A"), ("B"), ("C")]⟩], [], []⟩
        ⟨("3-2"), [], [], [], ⟨("stable"), []⟩, none⟩ [("A"), ("C")],
      a.item_id = ("C") ∧ a.slot_index = 2 ∧ a.action = ("hold")) := by
  have h := c1_item_actions_core_luxury ⟨[], [], []⟩
    ⟨("t"), ("t"), ⟨[], []⟩, [], ⟨none, none, none, []⟩, ⟨[], [], []⟩,
      [⟨("h1"), [("A"), ("B"), ("C")]⟩], [], []⟩
    ⟨("3-2"), [], [], [], ⟨("stable"), []⟩, none⟩ [("A"), ("C")]
  constructor
  · obtain ⟨a, ha, h1, h2, h3⟩ := h.1 ("A") (by decide) ⟨("h1"), 0, true⟩ (by decide)
    refine ⟨a, ha, h1, h2, ?_⟩
    rw [h3]
    decide
  · obtain ⟨a, ha, h1, h2, h3⟩ := h.1 ("C") (by decide) ⟨("h1"), 2, false⟩ (by decide)
    refine ⟨a, ha, h1, h2, ?_⟩
    rw [h3]
    decide

theorem contains_nil_str (x : String) : ([] : List String).contains x = false := rfl

theorem first_on_board_nil (c : List String) : first_on_board [] c = none := by
  induction c with
  | nil => rfl
  | cons x t ih => simp [first_on_board, List.find?, ih]

theorem find_contains_nil (l : List String) :
    l.find? (fun uid => ([] : List String).contains uid) = none := by
  induction l with
  | nil => rfl
  | cons x t ih => simp [List.find?, ih]

theorem find_const_false (l : List String) : l.find? (fun _ => false) = none := by
  induction l with
  | nil => rfl
  | cons x t ih => simp [List.find?, ih]

/-- C3: whenever the board is non-empty the holder resolver returns the
champion id of a fielded unit, whatever the item's tags; on an empty
board it returns the eventual holder. -/
theorem c3_choose_now_holder_fielded :
    ∀ (pack : Pack) (gs : GS) (template : Template) (item_id final_holder : String),
      (gs.board ≠ [] →
        choose_now_holder pack gs template item_id final_holder ∈
          gs.board.map (fun u => u.champion_id)) ∧
      (gs.board = [] →
        choose_now_holder pack gs template item_id final_holder = final_holder) := by
  intro pack gs template item_id final_holder
  constructor
  · intro hne
    have hbne : gs.board.map (fun u => u.champion_id) ≠ [] := by
      simpa using hne
    unfold choose_now_holder
    simp only []
    repeat' split
    all_goals solve_by_elim [mem_of_contains, mem_of_first_on_board,
      mem_of_find_contains, headD_mem]
  · intro he
    have hb : gs.board.map (fun u => u.champion_id) = [] := by rw [he]; rfl
    unfold choose_now_holder
    simp only [hb, first_on_board_nil, find_contains_nil, contains_nil_str,
      find_const_false, Bool.false_eq_true, if_false, List.headD_nil]
    repeat' split
    all_goals rfl

/-- Closed witness for C3: with a single fielded unit every item lands on
it; with an empty board the eventual holder is returned. -/
theorem c3_choose_now_holder_fielded_witness :
    choose_now_holder ⟨[], [], []⟩
      ⟨("3-2"), [⟨("x1"), 1⟩], [], [], ⟨("unknown"), []⟩, none⟩
      ⟨("t"), ("t"), ⟨[], []⟩, [], ⟨none, none, none, []⟩, ⟨[], [], []⟩, [], [], []⟩
      ("itm") ("carry") ∈
      ([⟨("x1"), 1⟩] : List BoardUnit).map (fun u => u.champion_id) ∧
    choose_now_holder ⟨[], [], []⟩
      ⟨("3-2"), [], [], [], ⟨("unknown"), []⟩, none⟩
      ⟨("t"), ("t"), ⟨[], []⟩, [], ⟨none, none, none, []⟩, ⟨[], [], []⟩, [], [], []⟩
      ("itm") ("carry") = ("carry") := by
  constructor
  · exact (c3_choose_now_holder_fielded ⟨[], [], []⟩
      ⟨("3-2"), [⟨("x1"), 1⟩], [], [], ⟨("unknown"), []⟩, none⟩
      ⟨("t"), ("t"), ⟨[], []⟩, [], ⟨none, none, none, []⟩, ⟨[], [], []⟩, [], [], []⟩
      ("itm") ("carry")).1 (by decide)
  · exact (c3_choose_now_holder_fielded ⟨[], [], []⟩
      ⟨("3-2"), [], [], [], ⟨("unknown"), []⟩, none⟩
      ⟨("t"), ("t"), ⟨[], []⟩, [], ⟨none, none, none, []⟩, ⟨[], [], []⟩, [], [], []⟩
      ("itm") ("carry")).2 rfl

theorem score_desc_trans : ∀ a b c : Int × Template × Breakdown,
    score_desc a b = true → score_desc b c = true → score_desc a c = true := by
  intro a b c hab hbc
  simp only [score_desc, decide_eq_true_eq] at *
  omega

theorem score_desc_total : ∀ a b : Int × Template × Breakdown,
    score_desc a b = true ∨ score_desc b a = true := by
  intro a b
  simp only [score_desc, decide_eq_true_eq]
  omega

theorem pairwise_enum_snd {α : Type} {R : α → α → Prop} {l : List α}
    (h : l.Pairwise R) : l.enum.Pairwise (fun e1 e2 => R e1.2 e2.2) := by
  have h2 : (l.enum.map Prod.snd).Pairwise R := by
    rw [List.enum_map_snd]
    exact h
  exact List.pairwise_map.mp h2

/-- Concrete ranking scenario for C5: five one-cost champions sharing a
trait, all fielded. -/
def rank_pack : Pack :=
  ⟨[⟨("c1"), 1, [("t1")]⟩, ⟨("c2"), 1, [("t1")]⟩, ⟨("c3"), 1, [("t1")]⟩,
    ⟨("c4"), 1, [("t1")]⟩, ⟨("c5"), 1, [("t1")]⟩], [], []⟩

/-- Concrete snapshot for C5 with the five champions fielded. -/
def rank_gs : GS :=
  ⟨("4-1"), [⟨("c1"), 1⟩, ⟨("c2"), 1⟩, ⟨("c3"), 1⟩, ⟨("c4"), 1⟩, ⟨("c5"), 1⟩],
    [], [], ⟨("unknown"), []⟩, none⟩

/-- C5 scenario template scoring 40 (four owned required units). -/
def tpl_forty : Template :=
  ⟨("ta"), ("ta"), ⟨[("c1"), ("c2"), ("c3"), ("c4")], []⟩, [],
    ⟨none, none, none, []⟩, ⟨[], [], []⟩, [], [], []⟩

/-- C5 scenario template scoring 55 (five required units and an untargeted
trait with five holders), declared as `tb`. -/
def tpl_fifty_b : Template :=
  ⟨("tb"), ("tb"), ⟨[("c1"), ("c2"), ("c3"), ("c4"), ("c5")], []⟩, [⟨("t1"), none⟩],
    ⟨none, none, none, []⟩, ⟨[], [], []⟩, [], [], []⟩

/-- C5 scenario template scoring 55, declared as `tc`. -/
def tpl_fifty_c : Template :=
  ⟨("tc"), ("tc"), ⟨[("c1"), ("c2"), ("c3"), ("c4"), ("c5")], []⟩, [⟨("t1"), none⟩],
    ⟨none, none, none, []⟩, ⟨[], [], []⟩, [], [], []⟩

theorem map_stable_insert {α β : Type} (f : α → β) (le : α → α → Bool)
    (le' : β → β → Bool) (hcomp : ∀ a b, le a b = le' (f a) (f b)) (a : α) :
    ∀ l : List α, (stable_insert le a l).map f = stable_insert le' (f a) (l.map f) := by
  intro l
  induction l with
  | nil => rfl
  | cons b t ih =>
    simp only [List.map_cons, stable_insert]
    rw [hcomp b a]
    by_cases h : le' (f b) (f a) = true
    · rw [if_pos h, if_pos h, List.map_cons, ih]
    · rw [if_neg h, if_neg h, List.map_cons, List.map_cons]

theorem map_stable_sort {α β : Type} (f : α → β) (le : α → α → Bool)
    (le' : β → β → Bool) (hcomp : ∀ a b, le a b = le' (f a) (f b)) (l : List α) :
    (stable_sort le l).map f = stable_sort le' (l.map f) := by
  suffices h : ∀ acc : List α,
      (l.foldl (fun acc a => stable_insert le a acc) acc).map f =
        (l.map f).foldl (fun acc b => stable_insert le' b acc) (acc.map f) by
    exact h []
  induction l with
  | nil => intro acc; rfl
  | cons a t ih =>
    intro acc
    rw [List.foldl_cons, List.map_cons, List.foldl_cons, ih,
      map_stable_insert f le le' hcomp]

theorem map_comp_enum {α β : Type} (g : α → β) (f : Nat × α → β)
    (hf : ∀ e : Nat × α, f e = g e.2) (l : List α) :
    l.enum.map f = l.map g := by
  have h1 : l.enum.map f = l.enum.map (fun e => g e.2) :=
    List.map_congr_left (fun e _ => hf e)
  have h2 : (fun e : Nat × α => g e.2) = g ∘ Prod.snd := rfl
  rw [h1, h2, ← List.map_map, List.enum_map_snd]

/-- C5 scenario template scoring 30 (three owned required units), used to
show a fourth, lower-scoring template is dropped from the cards. -/
def tpl_thirty : Template :=
  ⟨("td"), ("td"), ⟨[("c1"), ("c2"), ("c3")], []⟩, [],
    ⟨none, none, none, []⟩, ⟨[], [], []⟩, [], [], []⟩

/-- C5: the orchestrator emits `min 3 n` cards sorted descending by
score, the emitted ids and scores are exactly the first `min 3 n`
entries of the descending stable sort of all templates by total score
(so only top-scoring templates are emitted), tiers are
primary/backup/greedy by rank; on the concrete 40/55/55 tie scenario
the two 55-scorers take the first two cards with tiers primary and
backup in every declaration order, the 40-scorer taking greedy, and a
fourth 30-scoring template is dropped. -/
theorem c5_recommend_ranking :
    (∀ (pack : Pack) (templates : List Template) (gs : GS),
      (recommend pack templates gs 3).length = min 3 templates.length ∧
      (recommend pack templates gs 3).Pairwise (fun c d => d.score ≤ c.score) ∧
      (∀ (i : Nat) (h : i < (recommend pack templates gs 3).length),
        ((recommend pack templates gs 3).get ⟨i, h⟩).tier =
          [("primary"), ("backup"), ("greedy")].getD i ("option")) ∧
      ((recommend pack templates gs 3).map (fun c => (c.template_id, c.score)) =
        ((stable_sort (fun a b : String × Int => decide (b.2 ≤ a.2))
          (templates.map (fun t => (t.id, (score_template pack t gs).1)))).take 3))) ∧
    ((recommend rank_pack [tpl_thirty, tpl_forty, tpl_fifty_b, tpl_fifty_c] rank_gs 3).map
        (fun c => (c.template_id, c.tier, c.score)) =
      [(("tb"), ("primary"), 55), (("tc"), ("backup"), 55), (("ta"), ("greedy"), 40)] ∧
     (recommend rank_pack [tpl_forty, tpl_fifty_b, tpl_fifty_c] rank_gs 3).map
        (fun c => (c.template_id, c.tier, c.score)) =
      [(("tb"), ("primary"), 55), (("tc"), ("backup"), 55), (("ta"), ("greedy"), 40)] ∧
     (recommend rank_pack [tpl_forty, tpl_fifty_c, tpl_fifty_b] rank_gs 3).map
        (fun c => (c.template_id, c.tier, c.score)) =
      [(("tc"), ("primary"), 55), (("tb"), ("backup"), 55), (("ta"), ("greedy"), 40)] ∧
     (recommend rank_pack [tpl_fifty_b, tpl_forty, tpl_fifty_c] rank_gs 3).map
        (fun c => (c.template_id, c.tier, c.score)) =
      [(("tb"), ("primary"), 55), (("tc"), ("backup"), 55), (("ta"), ("greedy"), 40)] ∧
     (recommend rank_pack [tpl_fifty_b, tpl_fifty_c, tpl_forty] rank_gs 3).map
        (fun c => (c.template_id, c.tier, c.score)) =
      [(("tb"), ("primary"), 55), (("tc"), ("backup"), 55), (("ta"), ("greedy"), 40)] ∧
     (recommend rank_pack [tpl_fifty_c, tpl_forty, tpl_fifty_b] rank_gs 3).map
        (fun c => (c.template_id, c.tier, c.score)) =
      [(("tc"), ("primary"), 55), (("tb"), ("backup"), 55), (("ta"), ("greedy"), 40)] ∧
     (recommend rank_pack [tpl_fifty_c, tpl_fifty_b, tpl_forty] rank_gs 3).map
        (fun c => (c.template_id, c.tier, c.score)) =
      [(("tc"), ("primary"), 55), (("tb"), ("backup"), 55), (("ta"), ("greedy"), 40)]) := by
  constructor
  · intro pack templates gs
    refine ⟨?_, ?_, ?_, ?_⟩
    · unfold recommend
      simp only [List.length_map, List.enum_length, List.length_take,
        (stable_sort_perm score_desc _).length_eq]
    · unfold recommend
      simp only []
      refine List.pairwise_map.mpr
        (List.Pairwise.imp ?_
          (pairwise_enum_snd (R := fun x y => score_desc x y = true)
            (List.Pairwise.sublist (List.take_sublist 3 _)
              (stable_sort_pairwise score_desc_trans score_desc_total _))))
      intro a b h
      exact of_decide_eq_true h
    · intro i h
      unfold recommend
      simp only [List.get_eq_getElem, List.getElem_map, List.getElem_enum]
    · unfold recommend
      simp only []
      rw [List.map_map]
      refine Eq.trans (map_comp_enum
        (fun x : Int × Template × Breakdown => (x.2.1.id, x.1)) _ (fun e => rfl) _) ?_
      rw [List.map_take,
        map_stable_sort (fun x : Int × Template × Breakdown => (x.2.1.id, x.1))
          score_desc (fun a b : String × Int => decide (b.2 ≤ a.2)) (fun a b => rfl),
        List.map_map]
      rfl
  · refine ⟨by decide, by decide, by decide, by decide, by decide, by decide, by decide⟩

/-- Closed witness for C5 at a one-template and a two-template input. -/
theorem c5_recommend_ranking_witness :
    (recommend rank_pack [tpl_forty] rank_gs 3).length = min 3 ([tpl_forty].length) ∧
    ((recommend rank_pack [tpl_forty] rank_gs 3).get ⟨0, by decide⟩).tier =
      [("primary"), ("backup"), ("greedy")].getD 0 ("option") ∧
    (recommend rank_pack [tpl_forty, tpl_fifty_b] rank_gs 3).map
        (fun c => (c.template_id, c.score)) =
      ((stable_sort (fun a b : String × Int => decide (b.2 ≤ a.2))
        ([tpl_forty, tpl_fifty_b].map
          (fun t => (t.id, (score_template rank_pack t rank_gs).1)))).take 3) :=
  ⟨(c5_recommend_ranking.1 rank_pack [tpl_forty] rank_gs).1,
   (c5_recommend_ranking.1 rank_pack [tpl_forty] rank_gs).2.2.1 0 (by decide),
   (c5_recommend_ranking.1 rank_pack [tpl_forty, tpl_fifty_b] rank_gs).2.2.2⟩
